import Mathlib

/-!
# VSXu bitmap pipeline: Perlin-noise generator node and JPEG loader

A shallow embedding of

* `src/plugins/src/bitmap.generators/module_bitmap_perlin_noise.h`
  (`has_state_changed`, `run`, `on_delete`);
* `src/engine_graphics/include/bitmap/loader/vsx_bitmap_loader_jpg.h`
  (`worker`, `load_internal`).

Conventions.

* A `vsx_bitmap*` held by the node is an `Option Nat`: `none` is the null
  pointer, `some h` is a non-null pointer and `h` identifies the bitmap it
  points to.  `aquire_create` is taken to return a non-null pointer (line 219
  dereferences its result unconditionally).
* `float` parameters are exact rationals.  The only float operations of the
  node are a subtraction, `fabs` and a comparison with a tolerance.
* `int` parameters are mathematical integers; the node never does arithmetic
  on them apart from the difference taken by the dirty check.
* The calls the node makes into its collaborators (output parameter, bitmap
  cache, generator) are recorded, in program order, as a list of `Call`s.
* What the node reads from its surroundings during one call of `run` (input
  parameter values, `bitmap->data_ready`, the pointer `aquire_create`
  returns) is a `Tick`.
-/

namespace module_bitmap_perlin_noise

/-- The thirteen parameters of the node.  The source has each of them twice,
as `n_in` (input) and `n_cache` (last applied value); `color` has four
components. -/
structure Params where
  rand_seed : ℚ
  perlin_strength : ℚ
  octave : Int
  frequency : Int
  blob_enable : Int
  blob_arms : ℚ
  blob_attenuation : ℚ
  blob_star_flower : ℚ
  blob_angle : ℚ
  color0 : ℚ
  color1 : ℚ
  color2 : ℚ
  color3 : ℚ
  alpha : Int
  bitmap_type : Int
  size : Int
deriving DecidableEq

/-- The argument tuple of `vsx_bitmap_generator_perlin_noise::generate_cache_handle`
and of `vsx_bitmap_generator_perlin_noise::load` (after the bitmap), in call
order (lines 200-212 and 222-234). -/
structure GeneratorArgs where
  blob_enable : Int
  arms : ℚ
  attenuation : ℚ
  star_flower : ℚ
  angle : ℚ
  rand_seed : ℚ
  octave : Int
  frequency : Int
  perlin_strength : ℚ
  alpha : Int
  color : ℚ × ℚ × ℚ × ℚ
  bitmap_type : Int
  size : Int
deriving DecidableEq

/-- A call made by the node into a collaborator. -/
inductive Call where
  /-- The call `bitmap_out->set(b)`. -/
  | bitmap_out_set (b : Nat)
  /-- The call `vsx_bitmap_cache::get_instance()->destroy(b)`. -/
  | destroy (b : Nat)
  /-- The call `vsx_bitmap_cache::get_instance()->aquire_create(cache_handle, 0)`,
  which returned `ret`. -/
  | aquire_create (cache_handle : String) (ret : Nat)
  /-- The write `b->filename = cache_handle`. -/
  | set_filename (b : Nat) (cache_handle : String)
  /-- The call `vsx_bitmap_generator_perlin_noise::load(b, args...)`. -/
  | load (b : Nat) (args : GeneratorArgs)
deriving DecidableEq

/-- The member variables of the node that `run` and `on_delete` touch
(lines 53-71), plus the published value of `bitmap_out` and the inherited
`loading_done`. -/
structure Node where
  bitmap_out : Option Nat
  loading_done : Bool
  worker_running : Bool
  bitmap : Option Nat
  old_bitmap : Option Nat
  cache : Params
deriving DecidableEq

/-- What one call of `run` reads from outside the node. -/
structure Tick where
  /-- The values `n_in->get()` of the input parameters. -/
  inputs : Params
  /-- The value read by `b->data_ready` for the bitmap at address `b`. -/
  data_ready : Nat → Nat
  /-- The pointer returned by `aquire_create(cache_handle, 0)`. -/
  aquire_create : String → Nat

/-- The member initialisers of lines 56-71. -/
def initial_cache : Params :=
  { rand_seed := 4
    perlin_strength := 1
    octave := 0
    frequency := 0
    blob_enable := 0
    blob_arms := 0
    blob_attenuation := 0
    blob_star_flower := 0
    blob_angle := 0
    color0 := 1
    color1 := 1
    color2 := 1
    color3 := 1
    alpha := 0
    bitmap_type := 0
    size := 4 }

/-- A freshly constructed node (lines 56-71; the output is not set yet). -/
def fresh : Node :=
  { bitmap_out := none
    loading_done := false
    worker_running := false
    bitmap := none
    old_bitmap := none
    cache := initial_cache }

/-- Modelled from the spec: the `cache_check_f(n, t)` helper of
`vsx_module_cache_helper.h`, which is not under src/.  The dirty check
compares the input value with the last applied value using an epsilon:
it reports a change when `fabs(n_in->get() - n_cache) > t`. -/
def cache_check_f (n_in n_cache t : ℚ) : Bool :=
  decide (t < |n_in - n_cache|)

/-- Modelled from the spec: the `cache_check(n)` helper of
`vsx_module_cache_helper.h`, which is not under src/.  For an integer
parameter the dirty check reports a change when `n_in->get() != n_cache`. -/
def cache_check (n_in n_cache : Int) : Bool :=
  n_in != n_cache

/-- The dirty check of lines 139-156: the first check that fires returns
`true`; when none fires the result is `false`.  `cache_check_float4(color, t)`
(also of the absent helper header) is the epsilon check on each of the four
components. -/
def has_state_changed (i c : Params) : Bool :=
  cache_check_f i.rand_seed c.rand_seed 1
  || cache_check_f i.perlin_strength c.perlin_strength (1 / 100)
  || cache_check i.octave c.octave
  || cache_check i.frequency c.frequency
  || cache_check_f (i.blob_enable : ℚ) (c.blob_enable : ℚ) (1 / 100)
  || cache_check_f i.blob_arms c.blob_arms (1 / 100)
  || cache_check_f i.blob_attenuation c.blob_attenuation (1 / 100)
  || cache_check_f i.blob_star_flower c.blob_star_flower (1 / 100)
  || cache_check_f i.blob_angle c.blob_angle (1 / 100)
  || (cache_check_f i.color0 c.color0 (1 / 1000)
      || cache_check_f i.color1 c.color1 (1 / 1000)
      || cache_check_f i.color2 c.color2 (1 / 1000)
      || cache_check_f i.color3 c.color3 (1 / 1000))
  || cache_check i.alpha c.alpha
  || cache_check i.size c.size
  || cache_check i.bitmap_type c.bitmap_type

/-- Lines 162-173: when the current bitmap is non-null and its `data_ready`
is non-zero, publish it, release `old_bitmap` and clear `worker_running`. -/
def run_publish (t : Tick) (s : Node) : Node × List Call :=
  match s.bitmap with
  | some b =>
    if t.data_ready b ≠ 0 then
      match s.old_bitmap with
      | some o =>
        ({ s with bitmap_out := some b, loading_done := true,
                  old_bitmap := none, worker_running := false },
         [Call.bitmap_out_set b, Call.destroy o])
      | none =>
        ({ s with bitmap_out := some b, loading_done := true,
                  worker_running := false },
         [Call.bitmap_out_set b])
    else (s, [])
  | none => (s, [])

/-- Lines 178-190: copy every input into its `_cache` member
(`cache_set_float4(color)` copies the four components). -/
def store_inputs (i : Params) (s : Node) : Node :=
  { s with cache :=
      { rand_seed := i.rand_seed
        perlin_strength := i.perlin_strength
        octave := i.octave
        frequency := i.frequency
        blob_enable := i.blob_enable
        blob_arms := i.blob_arms
        blob_attenuation := i.blob_attenuation
        blob_star_flower := i.blob_star_flower
        blob_angle := i.blob_angle
        color0 := i.color0
        color1 := i.color1
        color2 := i.color2
        color3 := i.color3
        alpha := i.alpha
        size := i.size
        bitmap_type := i.bitmap_type } }

/-- The argument list written at lines 200-212 and again at lines 222-234,
built from the `_cache` members. -/
def generator_args (c : Params) : GeneratorArgs :=
  { blob_enable := c.blob_enable
    arms := c.blob_arms
    attenuation := c.blob_attenuation
    star_flower := c.blob_star_flower
    angle := c.blob_angle
    rand_seed := c.rand_seed
    octave := c.octave
    frequency := c.frequency
    perlin_strength := c.perlin_strength
    alpha := c.alpha
    color := (c.color0, c.color1, c.color2, c.color3)
    bitmap_type := c.bitmap_type
    size := c.size }

/-- Lines 178-236, the part of `run` after the two `req` guards.
`generate_cache_handle` is the static key function of the generator, which
is not under src/ and is taken as a parameter. -/
def run_request (generate_cache_handle : GeneratorArgs → String)
    (t : Tick) (s : Node) : Node × List Call :=
  let s1 := store_inputs t.inputs s
  let s2 : Node :=
    match s1.bitmap with
    | some b => { s1 with old_bitmap := some b, bitmap := none }
    | none => s1
  let cache_handle := generate_cache_handle (generator_args s2.cache)
  let acquired : Nat × List Call :=
    match s2.bitmap with
    | none =>
      (t.aquire_create cache_handle,
       [Call.aquire_create cache_handle (t.aquire_create cache_handle)])
    | some b => (b, [])
  ({ s2 with bitmap := some acquired.1, worker_running := true },
   acquired.2 ++ [Call.set_filename acquired.1 cache_handle,
                  Call.load acquired.1 (generator_args s2.cache)])

/-- The method `run` (lines 160-237).  `req(c)` leaves the method when `c`
is false. -/
def run (generate_cache_handle : GeneratorArgs → String)
    (t : Tick) (s : Node) : Node × List Call :=
  let p := run_publish t s
  if p.1.worker_running then p
  else if !(has_state_changed t.inputs p.1.cache) then p
  else
    let r := run_request generate_cache_handle t p.1
    (r.1, p.2 ++ r.2)

/-- The method `on_delete` (lines 239-243). -/
def on_delete (s : Node) : List Call :=
  match s.bitmap with
  | some b => [Call.destroy b]
  | none => []

/-- Calling `run` once per tick, in order: the final node and the calls of
each tick. -/
def run_ticks (generate_cache_handle : GeneratorArgs → String) :
    Node → List Tick → Node × List (List Call)
  | s, [] => (s, [])
  | s, t :: ts =>
    let r := run generate_cache_handle t s
    let rest := run_ticks generate_cache_handle r.1 ts
    (rest.1, r.2 :: rest.2)

/-- Whether a call is a cache request. -/
def Call.is_aquire_create : Call → Bool
  | Call.aquire_create _ _ => true
  | _ => false

/-- Whether a call is a generator invocation. -/
def Call.is_load : Call → Bool
  | Call.load _ _ => true
  | _ => false

/-- Whether a call is a `destroy`. -/
def Call.is_destroy : Call → Bool
  | Call.destroy _ => true
  | _ => false

/-- A tick issued a cache request. -/
def issues_request (calls : List Call) : Bool :=
  calls.any Call.is_aquire_create

/-- The tick reads a non-zero `data_ready` from the node's current bitmap
(vacuously true while the node has none). -/
def observes_ready (t : Tick) (s : Node) : Bool :=
  match s.bitmap with
  | some b => t.data_ready b != 0
  | none => true

/-- Along a sequence of ticks, every tick finds the node's current bitmap
ready: a bitmap requested on one tick is ready before the next. -/
def ready_before_next (generate_cache_handle : GeneratorArgs → String) :
    Node → List Tick → Bool
  | _, [] => true
  | s, t :: ts =>
    observes_ready t s
      && ready_before_next generate_cache_handle (run generate_cache_handle t s).1 ts

/-- Number of `aquire_create` calls in a call list that returned `h`. -/
def acquired (calls : List Call) (h : Nat) : Nat :=
  calls.countP (fun c => match c with
    | Call.aquire_create _ r => r == h
    | _ => false)

/-- Number of `destroy(h)` calls in a call list. -/
def destroyed (calls : List Call) (h : Nat) : Nat :=
  calls.countP (fun c => match c with
    | Call.destroy b => b == h
    | _ => false)

/-- Number of `load(h, ...)` calls in a call list. -/
def loaded (calls : List Call) (h : Nat) : Nat :=
  calls.countP (fun c => match c with
    | Call.load b _ => b == h
    | _ => false)

/-- Number of the node's two slots (`bitmap`, `old_bitmap`) that hold `h`. -/
def holds (s : Node) (h : Nat) : Nat :=
  (if s.bitmap = some h then 1 else 0) + (if s.old_bitmap = some h then 1 else 0)

/-- Number of non-null slots of the node. -/
def held_count (s : Node) : Nat :=
  (if s.bitmap.isSome then 1 else 0) + (if s.old_bitmap.isSome then 1 else 0)

/-- The pointers returned by the `aquire_create` calls of a call list. -/
def acquisitions (calls : List Call) : List Nat :=
  calls.filterMap (fun c => match c with
    | Call.aquire_create _ r => some r
    | _ => none)

/-- The invariant of the node along any run from a fresh node, relative to
the calls made so far: `old_bitmap` is null whenever no worker is running;
a published output is one of the two held pointers; for every address the
`aquire_create` calls that returned it are matched by the `destroy` calls
on it plus the slots that still hold it; and the same holds for the totals. -/
def node_inv (s : Node) (history : List Call) : Prop :=
  (s.worker_running = false → s.old_bitmap = none)
  ∧ (∀ h, s.bitmap_out = some h → s.bitmap = some h ∨ s.old_bitmap = some h)
  ∧ (∀ h, acquired history h = destroyed history h + holds s h)
  ∧ history.countP Call.is_aquire_create
      = history.countP Call.is_destroy + held_count s

/-- The spec's description of the dirty check over a sequence of snapshots:
a request is due on a snapshot exactly when it differs, under
`has_state_changed`, from the last applied snapshot `c`, and a snapshot is
applied exactly when a request is due on it. -/
def requests_by_last_applied : Params → List Params → List Bool
  | _, [] => []
  | c, i :: rest =>
    has_state_changed i c
      :: requests_by_last_applied (if has_state_changed i c then i else c) rest

/-- The declared defaults with `octave` set to 1. -/
def snapshot_octave : Params := { initial_cache with octave := 1 }

/-- The declared defaults with `size` set to 5. -/
def snapshot_size : Params := { initial_cache with size := 5 }

/-- A key function used for concrete runs: it tells the two sample snapshots
apart. -/
def sample_cache_handle (a : GeneratorArgs) : String :=
  if a.octave = 1 then "perlin:octave" else if a.size = 5 then "perlin:size" else "perlin"

/-- Every bitmap reads `data_ready = r`. -/
def ready_value (r : Nat) : Nat → Nat := fun _ => r

/-- The cache returns the address `a` for every key. -/
def returned (a : Nat) : String → Nat := fun _ => a

/-- A tick with the given inputs on which every bitmap reads `data_ready = r`
and `aquire_create` returns `a`. -/
def sample_tick (i : Params) (r a : Nat) : Tick :=
  { inputs := i, data_ready := ready_value r, aquire_create := returned a }

/-- The node after one tick from fresh with `octave = 1` at the inputs: a
request for bitmap 1 is in flight. -/
def waiting_node : Node :=
  (run sample_cache_handle (sample_tick snapshot_octave 0 1) fresh).1

/-- The node after a second tick on which bitmap 1 is ready and the inputs
have changed to `size = 5`: bitmap 1 is published and moved to `old_bitmap`,
and a request for bitmap 2 is in flight. -/
def swapping_node : Node :=
  (run sample_cache_handle (sample_tick snapshot_size 1 2) waiting_node).1

/-- Four ticks over the snapshots `octave = 1`, `size = 5`, `octave = 1`,
`octave = 1` with every bitmap ready in time; the cache returns bitmap 1,
then bitmap 2, then bitmap 1 again for the repeated snapshot. -/
def revisit_ticks : List Tick :=
  [sample_tick snapshot_octave 0 1, sample_tick snapshot_size 1 2,
   sample_tick snapshot_octave 1 1, sample_tick snapshot_octave 1 3]

/-- An entry of the bitmap cache: key, address of the bitmap, reference
count. -/
structure cache_entry where
  key : String
  bitmap : Nat
  references : Nat
deriving DecidableEq

/-- Modelled from the spec: the content-addressed cache `vsx_bitmap_cache`
is not under src/.  It maps a key to a shared, reference-counted resource;
`next_bitmap` is the address the next created resource gets. -/
structure vsx_bitmap_cache where
  entries : List cache_entry
  next_bitmap : Nat
deriving DecidableEq

/-- The cache has an entry for the key. -/
def vsx_bitmap_cache.has_entry (c : vsx_bitmap_cache) (key : String) : Bool :=
  c.entries.any (fun e => e.key == key)

/-- Modelled from the spec: `aquire_create` of the absent `vsx_bitmap_cache`.
If an entry for the key exists, its reference count is incremented and the
existing resource is returned; if absent, an empty resource is created,
stored under the key and returned. -/
def vsx_bitmap_cache.aquire_create (c : vsx_bitmap_cache) (key : String) :
    Nat × vsx_bitmap_cache :=
  match c.entries.find? (fun e => e.key == key) with
  | some e =>
    (e.bitmap,
     { c with entries := c.entries.map (fun x =>
         if x.key == key then { x with references := x.references + 1 } else x) })
  | none =>
    (c.next_bitmap,
     { entries := { key := key, bitmap := c.next_bitmap, references := 1 } :: c.entries
       next_bitmap := c.next_bitmap + 1 })

/-- A tick of a node that talks to the modelled cache `c`. -/
def cached_tick (c : vsx_bitmap_cache) (i : Params) (ready : Nat → Nat) : Tick :=
  { inputs := i, data_ready := ready, aquire_create := fun k => (c.aquire_create k).1 }

/-- A key function under which all parameter tuples share one key. -/
def colliding_cache_handle (_ : GeneratorArgs) : String := "perlin"

/-- The modelled cache after the given number of `aquire_create("perlin")`
calls on an empty cache: one entry, bitmap 1, with that many references. -/
def shared_entry (references : Nat) : vsx_bitmap_cache :=
  { entries := [{ key := "perlin", bitmap := 1, references := references }]
    next_bitmap := 2 }

/-- The node after two ticks from fresh against the modelled cache, with
colliding keys: a request creates bitmap 1; then bitmap 1 is ready and an
input has changed, so bitmap 1 moves to `old_bitmap` and the new request,
whose key already has an entry, gets bitmap 1 again.  Both slots hold
bitmap 1. -/
def aliased_node : Node :=
  (run_ticks colliding_cache_handle fresh
    [cached_tick { entries := [], next_bitmap := 1 } snapshot_octave (ready_value 0),
     cached_tick (shared_entry 1) snapshot_size (ready_value 1)]).1

end module_bitmap_perlin_noise

namespace vsx_bitmap_loader_jpg

/-- The integer widths `__sync_fetch_and_add` operates on.  The declaration
of `vsx_bitmap::data_ready` is not under src/, so the width of the counter
is a parameter of the model. -/
inductive counter_width where
  | bytes1
  | bytes2
  | bytes4
  | bytes8
  | bytes16
deriving DecidableEq

/-- Number of bits of a counter of the given width. -/
def counter_width.bits : counter_width → Nat
  | counter_width.bytes1 => 8
  | counter_width.bytes2 => 16
  | counter_width.bytes4 => 32
  | counter_width.bytes8 => 64
  | counter_width.bytes16 => 128

/-- The fields of `vsx_bitmap` that the JPEG loader touches.  `data` is the
array of plane pointers; `data_ready` is the readiness counter, a
fixed-width integer held here as the natural number of its bit pattern (the
spec describes it as an atomically incremented counter starting at 0). -/
structure vsx_bitmap where
  filename : String
  width : Nat
  height : Nat
  channels : Nat
  data : Nat → Option (List Nat)
  data_ready : Nat

/-- The two hints read by `worker` (lines 24 and 27). -/
structure vsx_bitmap_loader_hint where
  flip_vertically : Bool
  split_cubemap : Bool
deriving DecidableEq

/-- The decoder object `CJPEGTest cj` after `LoadJPEG`: what `GetResX()`,
`GetResY()` and `m_pBuf` give.  A missing or malformed file is any value of
this type, for instance zero dimensions and a null buffer. -/
structure CJPEGTest where
  ResX : Nat
  ResY : Nat
  m_pBuf : Option (List Nat)
deriving DecidableEq

/-- The fields of `vsx_texture_loader_thread_info` other than the bitmap
pointer; `filesystem` is the address of the `vsxf` object. -/
structure vsx_texture_loader_thread_info where
  filename : String
  filesystem : Nat
  hint : vsx_bitmap_loader_hint
deriving DecidableEq

/-- The collaborators of `worker`, none of which is under src/: the JPEG
decoder and the two in-place transforms of `vsx_bitmap_transform`. -/
structure Collaborators where
  LoadJPEG : String → Nat → CJPEGTest
  flip_vertically : vsx_bitmap → vsx_bitmap
  split_into_cubemap : vsx_bitmap → vsx_bitmap

/-- A `vsx_bitmap_loader_thread` object: the thread function is always
`worker`, so only its argument is recorded. -/
structure vsx_bitmap_loader_thread where
  thread_info : vsx_texture_loader_thread_info
deriving DecidableEq

/-- The memory `worker` and `load_internal` act on: the bitmap that
`thread_info->bitmap` points to and the thread objects created so far. -/
structure World where
  bitmap : vsx_bitmap
  threads : List vsx_bitmap_loader_thread

/-- The bitmap after lines 14-30 of `worker`.  The
`__sync_fetch_and_add(&data_ready, 1)` of line 30 adds 1 in the counter's
fixed width `cw`, wrapping to 0 past its maximum. -/
def worker_bitmap (E : Collaborators) (cw : counter_width)
    (thread_info : vsx_texture_loader_thread_info) (bitmap : vsx_bitmap) : vsx_bitmap :=
  let cj := E.LoadJPEG thread_info.filename thread_info.filesystem
  let b1 : vsx_bitmap :=
    { bitmap with
        filename := thread_info.filename
        width := cj.ResX
        height := cj.ResY
        data := Function.update bitmap.data 0 cj.m_pBuf
        channels := 3 }
  let b2 := if thread_info.hint.flip_vertically then E.flip_vertically b1 else b1
  let b3 := if thread_info.hint.split_cubemap then E.split_into_cubemap b2 else b2
  { b3 with data_ready := (b3.data_ready + 1) % 2 ^ cw.bits }

/-- The static function `worker` (lines 10-36), run to completion on the
calling thread.  It creates no thread object; the `delete thread_info` of
line 33 is not modelled. -/
def worker (E : Collaborators) (cw : counter_width)
    (thread_info : vsx_texture_loader_thread_info) (w : World) : World :=
  { w with bitmap := worker_bitmap E cw thread_info w.bitmap }

/-- The method `load_internal` (lines 38-44), observed when it returns: with
`thread = false` it calls `worker`; otherwise it creates a
`vsx_bitmap_loader_thread` and returns. -/
def load_internal (E : Collaborators) (cw : counter_width) (thread : Bool)
    (thread_info : vsx_texture_loader_thread_info) (w : World) : World :=
  if !thread then worker E cw thread_info w
  else { w with threads := w.threads ++ [{ thread_info := thread_info }] }

/-- A decoder that finds no file: zero dimensions and a null buffer. -/
def missing_file : CJPEGTest := { ResX := 0, ResY := 0, m_pBuf := none }

/-- Sample collaborators: the decoder finds nothing; the vertical flip
reverses the rows of plane 0 and the cubemap split copies plane 0 into
planes 1 to 5. -/
def sample_collaborators : Collaborators :=
  { LoadJPEG := fun _ _ => missing_file
    flip_vertically := fun b =>
      { b with data := Function.update b.data 0 ((b.data 0).map List.reverse) }
    split_into_cubemap := fun b =>
      { b with data := fun i => if i < 6 then b.data 0 else b.data i } }

/-- A default-constructed bitmap: zero dimensions, no planes,
`data_ready = 0`. -/
def empty_bitmap : vsx_bitmap :=
  { filename := "", width := 0, height := 0, channels := 0,
    data := fun _ => none, data_ready := 0 }

/-- A request for a file that does not exist, with both hints set. -/
def sample_thread_info : vsx_texture_loader_thread_info :=
  { filename := "nonexistent.jpg", filesystem := 0,
    hint := { flip_vertically := true, split_cubemap := true } }

/-- The world before any load. -/
def sample_world : World := { bitmap := empty_bitmap, threads := [] }

/-- A world whose bitmap has an eight-byte counter at its maximum. -/
def saturated_world : World :=
  { bitmap := { empty_bitmap with data_ready := 2 ^ 64 - 1 }, threads := [] }

end vsx_bitmap_loader_jpg

namespace module_bitmap_perlin_noise

/-! ## The dirty check -/

theorem store_inputs_cache (i : Params) (s : Node) : (store_inputs i s).cache = i := rfl

theorem cache_check_f_self (a t : ℚ) (ht : 0 ≤ t) : cache_check_f a a t = false := by
  simp [cache_check_f, ht]

theorem cache_check_f_comm (a b t : ℚ) : cache_check_f a b t = cache_check_f b a t := by
  simp [cache_check_f, abs_sub_comm]

theorem cache_check_self (a : Int) : cache_check a a = false := by
  simp [cache_check]

theorem cache_check_comm (a b : Int) : cache_check a b = cache_check b a := by
  simp [cache_check, bne, eq_comm]

theorem has_state_changed_self (p : Params) : has_state_changed p p = false := by
  simp [has_state_changed, cache_check_f_self, cache_check_self]

theorem has_state_changed_comm (p q : Params) :
    has_state_changed p q = has_state_changed q p := by
  unfold has_state_changed
  rw [cache_check_f_comm p.rand_seed, cache_check_f_comm p.perlin_strength,
    cache_check_comm p.octave, cache_check_comm p.frequency,
    cache_check_f_comm (p.blob_enable : ℚ), cache_check_f_comm p.blob_arms,
    cache_check_f_comm p.blob_attenuation, cache_check_f_comm p.blob_star_flower,
    cache_check_f_comm p.blob_angle, cache_check_f_comm p.color0,
    cache_check_f_comm p.color1, cache_check_f_comm p.color2,
    cache_check_f_comm p.color3, cache_check_comm p.alpha, cache_check_comm p.size,
    cache_check_comm p.bitmap_type]

theorem run_of_running (g : GeneratorArgs → String) (t : Tick) (s : Node)
    (h : (run_publish t s).1.worker_running = true) : run g t s = run_publish t s := by
  simp [run, h]

theorem run_of_unchanged (g : GeneratorArgs → String) (t : Tick) (s : Node)
    (h : has_state_changed t.inputs (run_publish t s).1.cache = false) :
    run g t s = run_publish t s := by
  simp [run, h]

theorem run_of_request (g : GeneratorArgs → String) (t : Tick) (s : Node)
    (hw : (run_publish t s).1.worker_running = false)
    (h : has_state_changed t.inputs (run_publish t s).1.cache = true) :
    run g t s = ((run_request g t (run_publish t s).1).1,
      (run_publish t s).2 ++ (run_request g t (run_publish t s).1).2) := by
  simp [run, h, hw]

theorem run_publish_cache (t : Tick) (s : Node) : (run_publish t s).1.cache = s.cache := by
  unfold run_publish
  split
  · split
    · split <;> rfl
    · rfl
  · rfl

/-! ## One call of run -/

theorem run_request_calls (g : GeneratorArgs → String) (t : Tick) (s : Node) :
    (run_request g t s).2 =
      [Call.aquire_create (g (generator_args t.inputs))
         (t.aquire_create (g (generator_args t.inputs))),
       Call.set_filename (t.aquire_create (g (generator_args t.inputs)))
         (g (generator_args t.inputs)),
       Call.load (t.aquire_create (g (generator_args t.inputs)))
         (generator_args t.inputs)] := by
  unfold run_request
  cases hb : s.bitmap <;> simp [store_inputs, hb]

theorem run_request_node (g : GeneratorArgs → String) (t : Tick) (s : Node) :
    (run_request g t s).1 =
      { bitmap_out := s.bitmap_out
        loading_done := s.loading_done
        worker_running := true
        bitmap := some (t.aquire_create (g (generator_args t.inputs)))
        old_bitmap := (match s.bitmap with
          | some b => some b
          | none => s.old_bitmap)
        cache := t.inputs } := by
  unfold run_request
  cases hb : s.bitmap <;> simp [store_inputs, hb]

theorem run_publish_ready (t : Tick) (s : Node) (b : Nat) (hb : s.bitmap = some b)
    (hr : t.data_ready b ≠ 0) :
    run_publish t s =
      ({ bitmap_out := some b
         loading_done := true
         worker_running := false
         bitmap := some b
         old_bitmap := none
         cache := s.cache },
       Call.bitmap_out_set b :: (match s.old_bitmap with
          | some o => [Call.destroy o]
          | none => [])) := by
  unfold run_publish
  cases ho : s.old_bitmap <;> simp [hb, hr, ho]

theorem run_publish_waiting (t : Tick) (s : Node)
    (hr : ∀ b, s.bitmap = some b → t.data_ready b = 0) :
    run_publish t s = (s, []) := by
  unfold run_publish
  split
  · rename_i b hb
    simp [hr b hb]
  · rfl

theorem run_publish_no_request (t : Tick) (s : Node) :
    issues_request (run_publish t s).2 = false := by
  unfold run_publish
  split
  · split
    · split <;> simp [issues_request, Call.is_aquire_create]
    · rfl
  · rfl

theorem run_issues_request_iff (g : GeneratorArgs → String) (t : Tick) (s : Node) :
    issues_request (run g t s).2 = true ↔
      ((run_publish t s).1.worker_running = false
        ∧ has_state_changed t.inputs s.cache = true) := by
  have hpub := run_publish_no_request t s
  cases hw : (run_publish t s).1.worker_running
  · cases hc : has_state_changed t.inputs s.cache
    · rw [run_of_unchanged g t s (by rw [run_publish_cache]; exact hc), hpub]
      simp
    · rw [run_of_request g t s hw (by rw [run_publish_cache]; exact hc), run_request_calls]
      simp [issues_request, Call.is_aquire_create]
  · rw [run_of_running g t s hw, hpub]
    simp

theorem run_calls_split (g : GeneratorArgs → String) (t : Tick) (s : Node) :
    ∃ rest, (run g t s).2 = (run_publish t s).2 ++ rest
      ∧ (∀ o, Call.destroy o ∉ rest)
      ∧ (run g t s).1.bitmap_out = (run_publish t s).1.bitmap_out := by
  cases hw : (run_publish t s).1.worker_running
  · cases hc : has_state_changed t.inputs (run_publish t s).1.cache
    · rw [run_of_unchanged g t s hc]
      exact ⟨[], by simp, by simp, rfl⟩
    · rw [run_of_request g t s hw hc, run_request_node, run_request_calls]
      exact ⟨_, rfl, by simp, rfl⟩
  · rw [run_of_running g t s hw]
    exact ⟨[], by simp, by simp, rfl⟩

theorem run_destroy_after_publish (g : GeneratorArgs → String) (t : Tick) (s : Node)
    (o : Nat) (h : Call.destroy o ∈ (run g t s).2) :
    s.old_bitmap = some o
    ∧ ∃ b rest, s.bitmap = some b ∧ t.data_ready b ≠ 0
        ∧ (run g t s).2 = Call.bitmap_out_set b :: Call.destroy o :: rest
        ∧ (run g t s).1.bitmap_out = some b := by
  obtain ⟨rest, hcalls, hrest, hout⟩ := run_calls_split g t s
  rw [hcalls] at h ⊢
  rw [hout]
  cases hb : s.bitmap with
  | none =>
    rw [run_publish_waiting t s (by simp [hb])] at h
    simp at h
    exact absurd h (hrest o)
  | some b =>
    by_cases hr : t.data_ready b = 0
    · rw [run_publish_waiting t s (by intro b' hb'; rw [hb] at hb'; cases hb'; exact hr)] at h
      simp at h
      exact absurd h (hrest o)
    · rw [run_publish_ready t s b hb hr] at h ⊢
      cases ho : s.old_bitmap with
      | none =>
        rw [ho] at h
        simp at h
        exact absurd h (hrest o)
      | some o' =>
        rw [ho] at h
        simp at h
        rcases h with h | h
        · subst h
          exact ⟨rfl, b, rest, rfl, hr, by simp, rfl⟩
        · exact absurd h (hrest o)

theorem acquired_eq_count (calls : List Call) (h : Nat) :
    acquired calls h = (acquisitions calls).count h := by
  induction calls with
  | nil => rfl
  | cons c cs ih =>
    unfold acquired acquisitions at ih ⊢
    cases c <;> simp [List.countP_cons, List.filterMap_cons, List.count_cons, ih]

theorem destroyed_eq_zero (calls : List Call) (h : Nat) (hz : destroyed calls h = 0) :
    Call.destroy h ∉ calls := by
  intro hm
  unfold destroyed at hz
  rw [List.countP_eq_zero] at hz
  have := hz _ hm
  simp at this

theorem run_publish_not_running (t : Tick) (s : Node)
    (hr : observes_ready t s = true) (hj : s.bitmap = none → s.worker_running = false) :
    (run_publish t s).1.worker_running = false := by
  cases hb : s.bitmap with
  | none =>
    rw [run_publish_waiting t s (by simp [hb])]
    exact hj hb
  | some b =>
    have hne : t.data_ready b ≠ 0 := by
      simpa [observes_ready, hb] using hr
    rw [run_publish_ready t s b hb hne]

theorem run_step_when_ready (g : GeneratorArgs → String) (t : Tick) (s : Node)
    (hr : observes_ready t s = true) (hj : s.bitmap = none → s.worker_running = false) :
    issues_request (run g t s).2 = has_state_changed t.inputs s.cache
    ∧ (run g t s).1.cache = (if has_state_changed t.inputs s.cache then t.inputs else s.cache)
    ∧ ((run g t s).1.bitmap = none → (run g t s).1.worker_running = false) := by
  have hw := run_publish_not_running t s hr hj
  cases hc : has_state_changed t.inputs s.cache
  · have hrun := run_of_unchanged g t s (by rw [run_publish_cache]; exact hc)
    rw [hrun]
    exact ⟨run_publish_no_request t s, by simpa using run_publish_cache t s, fun _ => hw⟩
  · have hrun := run_of_request g t s hw (by rw [run_publish_cache]; exact hc)
    rw [hrun, run_request_node, run_request_calls]
    refine ⟨by simp [issues_request, Call.is_aquire_create], by simp, fun h => by simp at h⟩

theorem requests_follow_last_applied (g : GeneratorArgs → String) (ts : List Tick) :
    ∀ s : Node, ready_before_next g s ts = true →
      (s.bitmap = none → s.worker_running = false) →
      (run_ticks g s ts).2.map issues_request
        = requests_by_last_applied s.cache (ts.map Tick.inputs) := by
  induction ts with
  | nil =>
    intro s _ _
    rfl
  | cons t ts ih =>
    intro s hr hj
    simp only [ready_before_next, Bool.and_eq_true] at hr
    obtain ⟨h1, h2, h3⟩ := run_step_when_ready g t s hr.1 hj
    have := ih (run g t s).1 hr.2 h3
    simp only [run_ticks, List.map_cons, requests_by_last_applied, this, h1, h2]

theorem loaded_eq_acquired_run (g : GeneratorArgs → String) (t : Tick) (s : Node) (h : Nat) :
    loaded (run g t s).2 h = acquired (run g t s).2 h := by
  have hp : loaded (run_publish t s).2 h = 0 ∧ acquired (run_publish t s).2 h = 0 := by
    unfold run_publish
    split
    · split
      · split <;> simp [loaded, acquired]
      · simp [loaded, acquired]
    · simp [loaded, acquired]
  cases hw : (run_publish t s).1.worker_running
  · cases hc : has_state_changed t.inputs (run_publish t s).1.cache
    · rw [run_of_unchanged g t s hc, hp.1, hp.2]
    · rw [run_of_request g t s hw hc, run_request_calls]
      have h1 := hp.1
      have h2 := hp.2
      unfold loaded at h1 ⊢
      unfold acquired at h2 ⊢
      simp only [List.countP_append, h1, h2]
      simp [List.countP_cons]
  · rw [run_of_running g t s hw, hp.1, hp.2]

/-! ## The invariant -/

theorem node_inv_fresh : node_inv fresh [] := by
  refine ⟨fun _ => rfl, ?_, ?_, ?_⟩
  · intro h hh
    simp [fresh] at hh
  · intro h
    simp [acquired, destroyed, holds, fresh]
  · simp [held_count, fresh]

theorem node_inv_run_publish (t : Tick) (s : Node) (history : List Call)
    (hi : node_inv s history) :
    node_inv (run_publish t s).1 (history ++ (run_publish t s).2) := by
  obtain ⟨h1, h2, h3, h4⟩ := hi
  cases hb : s.bitmap with
  | none =>
    rw [run_publish_waiting t s (by simp [hb])]
    simpa using ⟨h1, h2, h3, h4⟩
  | some b =>
    by_cases hr : t.data_ready b = 0
    · rw [run_publish_waiting t s (by intro b' hb'; rw [hb] at hb'; cases hb'; exact hr)]
      simpa using ⟨h1, h2, h3, h4⟩
    · rw [run_publish_ready t s b hb hr]
      refine ⟨fun _ => rfl, ?_, ?_, ?_⟩
      · intro h hh
        left
        simpa using hh
      · intro h
        have := h3 h
        cases ho : s.old_bitmap with
        | none =>
          simp [acquired, destroyed, holds, hb, ho, List.countP_append] at this ⊢
          exact this
        | some o =>
          simp [acquired, destroyed, holds, hb, ho, List.countP_append, List.countP_cons] at this ⊢
          by_cases hbh : b = h <;> by_cases hoh : o = h <;> simp [hbh, hoh] at this ⊢ <;> omega
      · cases ho : s.old_bitmap with
        | none =>
          simp [held_count, hb, ho, List.countP_append, List.countP_cons,
            Call.is_aquire_create, Call.is_destroy] at h4 ⊢
          exact h4
        | some o =>
          simp [held_count, hb, ho, List.countP_append, List.countP_cons,
            Call.is_aquire_create, Call.is_destroy] at h4 ⊢
          omega

theorem node_inv_run_request (g : GeneratorArgs → String) (t : Tick) (s : Node)
    (history : List Call) (hi : node_inv s history) (hw : s.worker_running = false) :
    node_inv (run_request g t s).1 (history ++ (run_request g t s).2) := by
  obtain ⟨h1, h2, h3, h4⟩ := hi
  have ho := h1 hw
  rw [run_request_node, run_request_calls]
  refine ⟨fun h => by simp at h, ?_, ?_, ?_⟩
  · intro h hh
    rcases h2 h hh with hb | hb
    · right
      simp [hb]
    · rw [ho] at hb
      cases hb
  · intro h
    have := h3 h
    cases hb : s.bitmap with
    | none =>
      simp [acquired, destroyed, holds, hb, ho, List.countP_append, List.countP_cons] at this ⊢
      exact this
    | some b =>
      simp [acquired, destroyed, holds, hb, ho, List.countP_append, List.countP_cons] at this ⊢
      by_cases hah : t.aquire_create (g (generator_args t.inputs)) = h <;>
        by_cases hbh : b = h <;> simp [hah, hbh] at this ⊢ <;> omega
  · cases hb : s.bitmap with
    | none =>
      simp [held_count, hb, ho, List.countP_append, List.countP_cons,
        Call.is_aquire_create, Call.is_destroy] at h4 ⊢
      exact h4
    | some b =>
      simp [held_count, hb, ho, List.countP_append, List.countP_cons,
        Call.is_aquire_create, Call.is_destroy] at h4 ⊢
      omega

theorem node_inv_run (g : GeneratorArgs → String) (t : Tick) (s : Node)
    (history : List Call) (hi : node_inv s history) :
    node_inv (run g t s).1 (history ++ (run g t s).2) := by
  have hp := node_inv_run_publish t s history hi
  cases hw : (run_publish t s).1.worker_running
  · cases hc : has_state_changed t.inputs (run_publish t s).1.cache
    · rw [run_of_unchanged g t s hc]
      exact hp
    · rw [run_of_request g t s hw hc]
      have := node_inv_run_request g t _ _ hp hw
      simpa [List.append_assoc] using this
  · rw [run_of_running g t s hw]
    exact hp

theorem node_inv_run_ticks (g : GeneratorArgs → String) (ts : List Tick) :
    ∀ (s : Node) (history : List Call), node_inv s history →
      node_inv (run_ticks g s ts).1 (history ++ (run_ticks g s ts).2.flatten) := by
  induction ts with
  | nil =>
    intro s history hi
    simpa [run_ticks] using hi
  | cons t ts ih =>
    intro s history hi
    have := ih (run g t s).1 (history ++ (run g t s).2) (node_inv_run g t s history hi)
    simpa [run_ticks, List.append_assoc] using this

theorem node_inv_reachable (g : GeneratorArgs → String) (ts : List Tick) :
    node_inv (run_ticks g fresh ts).1 (run_ticks g fresh ts).2.flatten := by
  simpa using node_inv_run_ticks g ts fresh [] node_inv_fresh

/-! ## The claims about the node -/

/-- Claim C1, amended.  Let `P0` differ from the values the constructor puts
in the `_cache` members and let `P1` differ from `P0`, both under
`has_state_changed`.  Tick a fresh node over the snapshots
`[P0, P0, P1, P1, P0]`, whatever the cache returns, with every tick finding
the node's current bitmap ready.  Then a cache request is issued on a tick
exactly when its snapshot differs from the last applied snapshot, and that
is at indices 0, 2 and 4 and not at indices 1 and 3. -/
theorem requests_at_changes (g : GeneratorArgs → String) (P0 P1 : Params)
    (r0 r1 r2 r3 r4 : Nat → Nat) (a0 a1 a2 a3 a4 : String → Nat)
    (hinit : has_state_changed P0 initial_cache = true)
    (hdiff : has_state_changed P1 P0 = true)
    (hready : ready_before_next g fresh
      [{ inputs := P0, data_ready := r0, aquire_create := a0 },
       { inputs := P0, data_ready := r1, aquire_create := a1 },
       { inputs := P1, data_ready := r2, aquire_create := a2 },
       { inputs := P1, data_ready := r3, aquire_create := a3 },
       { inputs := P0, data_ready := r4, aquire_create := a4 }] = true) :
    (run_ticks g fresh
      [{ inputs := P0, data_ready := r0, aquire_create := a0 },
       { inputs := P0, data_ready := r1, aquire_create := a1 },
       { inputs := P1, data_ready := r2, aquire_create := a2 },
       { inputs := P1, data_ready := r3, aquire_create := a3 },
       { inputs := P0, data_ready := r4, aquire_create := a4 }]).2.map issues_request
      = requests_by_last_applied initial_cache [P0, P0, P1, P1, P0]
    ∧ (run_ticks g fresh
      [{ inputs := P0, data_ready := r0, aquire_create := a0 },
       { inputs := P0, data_ready := r1, aquire_create := a1 },
       { inputs := P1, data_ready := r2, aquire_create := a2 },
       { inputs := P1, data_ready := r3, aquire_create := a3 },
       { inputs := P0, data_ready := r4, aquire_create := a4 }]).2.map issues_request
      = [true, false, true, false, true] := by
  have h := requests_follow_last_applied g _ fresh hready (fun _ => rfl)
  refine ⟨h, ?_⟩
  rw [h]
  have hback : has_state_changed P0 P1 = true := by
    rw [has_state_changed_comm]; exact hdiff
  simp [requests_by_last_applied, fresh, hinit, hdiff, hback, has_state_changed_self]

/-- Counterexample to C1 as stated.  With `P0` the declared defaults (which
are also the initial `_cache` values) and `P1` the defaults with
`octave = 1`, the two snapshots differ and every bitmap is ready in time,
yet no request is issued at index 0: the requests are at indices 2 and 4
only. -/
theorem no_request_for_default_inputs :
    has_state_changed snapshot_octave initial_cache = true
    ∧ ready_before_next sample_cache_handle fresh
        [sample_tick initial_cache 1 1, sample_tick initial_cache 1 1,
         sample_tick snapshot_octave 1 1, sample_tick snapshot_octave 1 1,
         sample_tick initial_cache 1 2] = true
    ∧ (run_ticks sample_cache_handle fresh
        [sample_tick initial_cache 1 1, sample_tick initial_cache 1 1,
         sample_tick snapshot_octave 1 1, sample_tick snapshot_octave 1 1,
         sample_tick initial_cache 1 2]).2.map issues_request
        = [false, false, true, false, true]
    ∧ (run_ticks sample_cache_handle fresh
        [sample_tick initial_cache 1 1, sample_tick initial_cache 1 1,
         sample_tick snapshot_octave 1 1, sample_tick snapshot_octave 1 1,
         sample_tick initial_cache 1 2]).2.map issues_request
        ≠ [true, false, true, false, true] := by
  decide!

/-- Witness for C1, amended: `P0` has `octave = 1`, `P1` has `size = 5`. -/
theorem requests_at_changes_witness :
    has_state_changed snapshot_octave initial_cache = true
    ∧ has_state_changed snapshot_size snapshot_octave = true
    ∧ (run_ticks sample_cache_handle fresh
        [sample_tick snapshot_octave 1 1, sample_tick snapshot_octave 1 1,
         sample_tick snapshot_size 1 2, sample_tick snapshot_size 1 2,
         sample_tick snapshot_octave 1 3]).2.map issues_request
        = [true, false, true, false, true] :=
  ⟨by decide!, by decide!,
   (requests_at_changes sample_cache_handle snapshot_octave snapshot_size
      (ready_value 1) (ready_value 1) (ready_value 1) (ready_value 1) (ready_value 1)
      (returned 1) (returned 1) (returned 2) (returned 2) (returned 3)
      (by decide!) (by decide!) (by decide!)).2⟩

/-- Claim C2.  Re-entrancy guard: when `worker_running` is true and the
current bitmap is not ready (`data_ready = 0`, or there is no current
bitmap), then for every value of the inputs `run` makes no call at all (no
`aquire_create`, no `load`, no `destroy`, no output write) and returns the
node unchanged: `bitmap`, `old_bitmap`, `worker_running`, the output,
`loading_done` and the thirteen cached parameters keep their values. -/
theorem run_reentrancy_guard (g : GeneratorArgs → String) (t : Tick) (s : Node)
    (hw : s.worker_running = true)
    (hr : ∀ b, s.bitmap = some b → t.data_ready b = 0) :
    run g t s = (s, []) := by
  have hp : run_publish t s = (s, []) := by
    unfold run_publish
    split
    · rename_i b hb
      simp [hr b hb]
    · rfl
  rw [run_of_running g t s (by rw [hp]; exact hw), hp]

/-- Witness for C2: a request for bitmap 1 is in flight, bitmap 1 is not
ready, and the inputs have changed. -/
theorem run_reentrancy_guard_witness :
    waiting_node.worker_running = true
    ∧ waiting_node.bitmap = some 1
    ∧ has_state_changed snapshot_size waiting_node.cache = true
    ∧ run sample_cache_handle (sample_tick snapshot_size 0 2) waiting_node
        = (waiting_node, []) :=
  ⟨by decide!, by decide!, by decide!,
   run_reentrancy_guard sample_cache_handle (sample_tick snapshot_size 0 2) waiting_node
     (by decide!) (fun _ _ => rfl)⟩

/-- Claim C3, amended.  When the current bitmap `b` is non-null and its
`data_ready` is non-zero, `run` sets the output to `b`; its `destroy` calls
are exactly one call on `old_bitmap` when that is non-null and none when it
is null; the publish block leaves `old_bitmap` null; at the end of `run`,
`old_bitmap` is null and `worker_running` is false when the inputs have not
changed, and when they have changed `old_bitmap` holds the just-published
`b` (a new request is in flight), so it no longer holds the destroyed
pointer provided that pointer differs from `b`. -/
theorem run_publishes_ready_bitmap (g : GeneratorArgs → String) (t : Tick) (s : Node)
    (b : Nat) (hb : s.bitmap = some b) (hr : t.data_ready b ≠ 0) :
    (run g t s).1.bitmap_out = some b
    ∧ (run g t s).2.filter Call.is_destroy
        = (match s.old_bitmap with
           | some o => [Call.destroy o]
           | none => [])
    ∧ (run_publish t s).1.old_bitmap = none
    ∧ ((run g t s).1.old_bitmap = none ∨ (run g t s).1.old_bitmap = some b)
    ∧ (∀ o, s.old_bitmap = some o → o ≠ b → (run g t s).1.old_bitmap ≠ some o)
    ∧ (has_state_changed t.inputs s.cache = false →
        (run g t s).1.worker_running = false ∧ (run g t s).1.old_bitmap = none)
    ∧ (has_state_changed t.inputs s.cache = true →
        (run g t s).1.worker_running = true ∧ (run g t s).1.old_bitmap = some b) := by
  have hp := run_publish_ready t s b hb hr
  cases hc : has_state_changed t.inputs s.cache
  · have hrun : run g t s = run_publish t s :=
      run_of_unchanged g t s (by rw [run_publish_cache]; exact hc)
    rw [hrun, hp]
    refine ⟨rfl, ?_, rfl, Or.inl rfl, ?_, fun _ => ⟨rfl, rfl⟩, fun h => by simp at h⟩
    · cases s.old_bitmap <;> simp [Call.is_destroy]
    · intro o _ _ h
      simp at h
  · have hrun := run_of_request g t s (by rw [hp]) (by rw [run_publish_cache]; exact hc)
    rw [hrun, run_request_node, run_request_calls, hp]
    refine ⟨rfl, ?_, rfl, Or.inr rfl, ?_, fun h => by simp at h, fun _ => ⟨rfl, rfl⟩⟩
    · cases s.old_bitmap <;> simp [Call.is_destroy]
    · intro o _ hne h
      simp at h
      exact hne h.symm

/-- Counterexample to C3 as stated.  The node holds bitmap 1 in both slots
(reached from a fresh node when two requests share a cache entry), bitmap 1
is ready and the inputs have changed.  `run` publishes bitmap 1, calls
`destroy(1)` once for `old_bitmap`, and then moves the current bitmap 1 into
`old_bitmap` for the new request: `old_bitmap` still holds the pointer that
was passed to `destroy`. -/
theorem old_bitmap_keeps_destroyed_pointer :
    aliased_node.bitmap = some 1
    ∧ aliased_node.old_bitmap = some 1
    ∧ (cached_tick (shared_entry 2) snapshot_octave (ready_value 1)).data_ready 1 ≠ 0
    ∧ (run colliding_cache_handle
        (cached_tick (shared_entry 2) snapshot_octave (ready_value 1)) aliased_node).2
        = [Call.bitmap_out_set 1, Call.destroy 1,
           Call.aquire_create "perlin" 1,
           Call.set_filename 1 "perlin",
           Call.load 1 (generator_args snapshot_octave)]
    ∧ (run colliding_cache_handle
        (cached_tick (shared_entry 2) snapshot_octave (ready_value 1))
        aliased_node).1.old_bitmap = some 1 := by
  decide!

/-- Witness for C3, amended: bitmap 2 is current and ready, bitmap 1 is in
`old_bitmap`, the inputs are unchanged. -/
theorem run_publishes_ready_bitmap_witness :
    swapping_node.bitmap = some 2
    ∧ swapping_node.old_bitmap = some 1
    ∧ (run sample_cache_handle (sample_tick snapshot_size 1 3) swapping_node).1.bitmap_out
        = some 2
    ∧ (run sample_cache_handle (sample_tick snapshot_size 1 3) swapping_node).2
        = [Call.bitmap_out_set 2, Call.destroy 1]
    ∧ (run sample_cache_handle (sample_tick snapshot_size 1 3) swapping_node).1.old_bitmap
        = none :=
  ⟨by decide!, by decide!,
   (run_publishes_ready_bitmap sample_cache_handle (sample_tick snapshot_size 1 3)
      swapping_node 2 (by decide!) (by decide!)).1,
   by decide!,
   ((run_publishes_ready_bitmap sample_cache_handle (sample_tick snapshot_size 1 3)
      swapping_node 2 (by decide!) (by decide!)).2.2.2.2.2.1 (by decide!)).2⟩

/-- Claim C4 fails on the code.  After two ticks from a fresh node (a request
for bitmap 1; then bitmap 1 ready and a changed input, so bitmap 1 moves to
`old_bitmap` and bitmap 2 is requested) the node holds bitmap 2 and
bitmap 1.  `on_delete` calls `destroy` on bitmap 2 only: bitmap 1, acquired
once, is never passed to `destroy`. -/
theorem on_delete_skips_old_bitmap :
    swapping_node
      = (run_ticks sample_cache_handle fresh
          [sample_tick snapshot_octave 0 1, sample_tick snapshot_size 1 2]).1
    ∧ swapping_node.bitmap = some 2
    ∧ swapping_node.old_bitmap = some 1
    ∧ on_delete swapping_node = [Call.destroy 2]
    ∧ Call.destroy 1 ∉
        (run_ticks sample_cache_handle fresh
          [sample_tick snapshot_octave 0 1, sample_tick snapshot_size 1 2]).2.flatten
          ++ on_delete swapping_node
    ∧ acquired
        ((run_ticks sample_cache_handle fresh
          [sample_tick snapshot_octave 0 1, sample_tick snapshot_size 1 2]).2.flatten
          ++ on_delete swapping_node) 1 = 1 := by
  decide!

/-- Claim C5.  After any sequence of `run` ticks from a fresh node: (a) for
every address, the `aquire_create` calls that returned it equal the
`destroy` calls on it plus the slots (`bitmap`, `old_bitmap`) holding it, and
in total the acquisitions not yet destroyed are the non-null slots, at most
two; (b) a next tick calls `destroy(o)` only if `o` is `old_bitmap` and the
tick reads a non-zero `data_ready` from the current bitmap; (c) when a next
tick issues a request, `old_bitmap` is null at that point, and a pointer it
held at the start of the tick has been passed to `destroy` by the publish
block of that same tick. -/
theorem slot_invariant (g : GeneratorArgs → String) (ts : List Tick) (t : Tick) :
    (∀ h, acquired (run_ticks g fresh ts).2.flatten h
        = destroyed (run_ticks g fresh ts).2.flatten h + holds (run_ticks g fresh ts).1 h)
    ∧ ((run_ticks g fresh ts).2.flatten.countP Call.is_aquire_create
        = (run_ticks g fresh ts).2.flatten.countP Call.is_destroy
          + held_count (run_ticks g fresh ts).1
       ∧ held_count (run_ticks g fresh ts).1 ≤ 2)
    ∧ (∀ o, Call.destroy o ∈ (run g t (run_ticks g fresh ts).1).2 →
        (run_ticks g fresh ts).1.old_bitmap = some o
        ∧ ∃ b, (run_ticks g fresh ts).1.bitmap = some b ∧ t.data_ready b ≠ 0)
    ∧ (issues_request (run g t (run_ticks g fresh ts).1).2 = true →
        (run_publish t (run_ticks g fresh ts).1).1.old_bitmap = none
        ∧ ∀ o, (run_ticks g fresh ts).1.old_bitmap = some o →
            Call.destroy o ∈ (run_publish t (run_ticks g fresh ts).1).2) := by
  have hinv := node_inv_reachable g ts
  generalize (run_ticks g fresh ts).1 = s at hinv ⊢
  generalize (run_ticks g fresh ts).2.flatten = history at hinv ⊢
  refine ⟨hinv.2.2.1, ⟨hinv.2.2.2, ?_⟩, ?_, ?_⟩
  · unfold held_count
    split <;> split <;> omega
  · intro o ho
    obtain ⟨h1, b, rest, h2, h3, _, _⟩ := run_destroy_after_publish g t s o ho
    exact ⟨h1, b, h2, h3⟩
  · intro hreq
    have hw := ((run_issues_request_iff g t s).1 hreq).1
    have hp := node_inv_run_publish t s history hinv
    have hnone := hp.1 hw
    refine ⟨hnone, ?_⟩
    intro o ho
    cases hb : s.bitmap with
    | none =>
      rw [run_publish_waiting t s (by simp [hb])] at hnone
      rw [ho] at hnone
      cases hnone
    | some b =>
      by_cases hr : t.data_ready b = 0
      · rw [run_publish_waiting t s (by intro b' hb'; rw [hb] at hb'; cases hb'; exact hr)]
          at hnone
        rw [ho] at hnone
        cases hnone
      · rw [run_publish_ready t s b hb hr, ho]
        simp

/-- Claim C6, amended.  Over any sequence of `run` ticks from any node state
and whatever the cache returns, the number of `load` calls on a bitmap
equals the number of `aquire_create` calls that returned it: the node
invokes the generator once on every request, also when the cache handed
back an existing instance. -/
theorem load_on_every_request (g : GeneratorArgs → String) (ts : List Tick) :
    ∀ (s : Node) (h : Nat),
      loaded (run_ticks g s ts).2.flatten h = acquired (run_ticks g s ts).2.flatten h := by
  induction ts with
  | nil =>
    intro s h
    simp [run_ticks, loaded, acquired]
  | cons t ts ih =>
    intro s h
    have h1 := loaded_eq_acquired_run g t s h
    have h2 := ih (run g t s).1 h
    unfold loaded acquired at h1 h2 ⊢
    simp only [run_ticks, List.flatten_cons, List.countP_append, h1, h2]

/-- Counterexample to C6 as stated.  Two fresh nodes with the same inputs
share the modelled cache.  The first request creates the entry and bitmap 1;
for the second request the key already has an entry and `aquire_create`
returns the existing bitmap 1, and `run` calls `load` on it again: `load` is
invoked twice for bitmap 1. -/
theorem second_request_loads_again :
    ({ entries := [], next_bitmap := 1 } : vsx_bitmap_cache).aquire_create "perlin:size"
      = (1, { entries := [{ key := "perlin:size", bitmap := 1, references := 1 }],
              next_bitmap := 2 })
    ∧ ({ entries := [{ key := "perlin:size", bitmap := 1, references := 1 }],
         next_bitmap := 2 } : vsx_bitmap_cache).has_entry
        (sample_cache_handle (generator_args snapshot_size)) = true
    ∧ (run sample_cache_handle
        (cached_tick { entries := [], next_bitmap := 1 } snapshot_size (fun _ => 0)) fresh).2
        = [Call.aquire_create "perlin:size" 1, Call.set_filename 1 "perlin:size",
           Call.load 1 (generator_args snapshot_size)]
    ∧ (run sample_cache_handle
        (cached_tick { entries := [{ key := "perlin:size", bitmap := 1, references := 1 }],
                       next_bitmap := 2 } snapshot_size (fun _ => 0)) fresh).2
        = [Call.aquire_create "perlin:size" 1, Call.set_filename 1 "perlin:size",
           Call.load 1 (generator_args snapshot_size)]
    ∧ loaded
        ((run sample_cache_handle
            (cached_tick { entries := [], next_bitmap := 1 } snapshot_size (fun _ => 0))
            fresh).2
          ++ (run sample_cache_handle
            (cached_tick { entries := [{ key := "perlin:size", bitmap := 1, references := 1 }],
                           next_bitmap := 2 } snapshot_size (fun _ => 0)) fresh).2) 1
        = 2 := by
  decide!

/-- Claim C9.  On every tick where `run` issues a request, the thirteen
`_cache` members afterwards hold the values read from the inputs on that
tick, the key passed to `aquire_create` is `generate_cache_handle` applied
to the tuple of all thirteen input values (blob enable, arms, attenuation,
star_flower, angle, rand_seed, octave, frequency, perlin_strength, alpha,
color, bitmap_type, size), and `load` is called once, on the bitmap
returned, with that same tuple. -/
theorem run_request_uses_all_inputs (g : GeneratorArgs → String) (t : Tick) (s : Node)
    (h : issues_request (run g t s).2 = true) :
    (run g t s).1.cache = t.inputs
    ∧ (run g t s).2.filter (fun c => c.is_aquire_create || c.is_load)
        = [Call.aquire_create
             (g { blob_enable := t.inputs.blob_enable
                  arms := t.inputs.blob_arms
                  attenuation := t.inputs.blob_attenuation
                  star_flower := t.inputs.blob_star_flower
                  angle := t.inputs.blob_angle
                  rand_seed := t.inputs.rand_seed
                  octave := t.inputs.octave
                  frequency := t.inputs.frequency
                  perlin_strength := t.inputs.perlin_strength
                  alpha := t.inputs.alpha
                  color := (t.inputs.color0, t.inputs.color1, t.inputs.color2, t.inputs.color3)
                  bitmap_type := t.inputs.bitmap_type
                  size := t.inputs.size })
             (t.aquire_create
               (g { blob_enable := t.inputs.blob_enable
                    arms := t.inputs.blob_arms
                    attenuation := t.inputs.blob_attenuation
                    star_flower := t.inputs.blob_star_flower
                    angle := t.inputs.blob_angle
                    rand_seed := t.inputs.rand_seed
                    octave := t.inputs.octave
                    frequency := t.inputs.frequency
                    perlin_strength := t.inputs.perlin_strength
                    alpha := t.inputs.alpha
                    color := (t.inputs.color0, t.inputs.color1, t.inputs.color2, t.inputs.color3)
                    bitmap_type := t.inputs.bitmap_type
                    size := t.inputs.size })),
           Call.load
             (t.aquire_create
               (g { blob_enable := t.inputs.blob_enable
                    arms := t.inputs.blob_arms
                    attenuation := t.inputs.blob_attenuation
                    star_flower := t.inputs.blob_star_flower
                    angle := t.inputs.blob_angle
                    rand_seed := t.inputs.rand_seed
                    octave := t.inputs.octave
                    frequency := t.inputs.frequency
                    perlin_strength := t.inputs.perlin_strength
                    alpha := t.inputs.alpha
                    color := (t.inputs.color0, t.inputs.color1, t.inputs.color2, t.inputs.color3)
                    bitmap_type := t.inputs.bitmap_type
                    size := t.inputs.size }))
             { blob_enable := t.inputs.blob_enable
               arms := t.inputs.blob_arms
               attenuation := t.inputs.blob_attenuation
               star_flower := t.inputs.blob_star_flower
               angle := t.inputs.blob_angle
               rand_seed := t.inputs.rand_seed
               octave := t.inputs.octave
               frequency := t.inputs.frequency
               perlin_strength := t.inputs.perlin_strength
               alpha := t.inputs.alpha
               color := (t.inputs.color0, t.inputs.color1, t.inputs.color2, t.inputs.color3)
               bitmap_type := t.inputs.bitmap_type
               size := t.inputs.size }] := by
  have hpub : issues_request (run_publish t s).2 = false := by
    unfold run_publish
    split
    · split
      · split <;> simp [issues_request, Call.is_aquire_create]
      · rfl
    · rfl
  have hpf : (run_publish t s).2.filter (fun c => c.is_aquire_create || c.is_load) = [] := by
    unfold run_publish
    split
    · split
      · split <;> simp [Call.is_aquire_create, Call.is_load]
      · rfl
    · rfl
  cases hw : (run_publish t s).1.worker_running
  · cases hc : has_state_changed t.inputs (run_publish t s).1.cache
    · rw [run_of_unchanged g t s hc, hpub] at h
      exact absurd h (by simp)
    · rw [run_of_request g t s hw hc, run_request_node, run_request_calls]
      refine ⟨rfl, ?_⟩
      rw [List.filter_append, hpf]
      simp [Call.is_aquire_create, Call.is_load, generator_args]
  · rw [run_of_running g t s hw, hpub] at h
    exact absurd h (by simp)

/-- Witness for C9: the tick that requests bitmap 2 for `size = 5`. -/
theorem run_request_uses_all_inputs_witness :
    (run sample_cache_handle (sample_tick snapshot_size 1 2) waiting_node).1.cache
      = snapshot_size
    ∧ (run sample_cache_handle (sample_tick snapshot_size 1 2) waiting_node).2
      = [Call.bitmap_out_set 1,
         Call.aquire_create "perlin:size" 2,
         Call.set_filename 2 "perlin:size",
         Call.load 2 (generator_args snapshot_size)] :=
  ⟨(run_request_uses_all_inputs sample_cache_handle (sample_tick snapshot_size 1 2)
      waiting_node (by decide!)).1,
   by decide!⟩

/-- Claim C10, amended.  After any sequence of `run` ticks from a fresh
node, a published output `h` is the current bitmap or `old_bitmap`, and the
node has acquired `h` more often than it has passed it to `destroy`, so it
still holds a reference to it that it has not released; when the cache never
returned the same address twice, `h` has never been passed to `destroy` at
all.  On a next tick, a `destroy(o)` call comes directly after
`bitmap_out->set(b)` with `b` the current bitmap, which is the output when
the tick ends. -/
theorem output_is_held (g : GeneratorArgs → String) (ts : List Tick) (t : Tick) :
    (∀ h, (run_ticks g fresh ts).1.bitmap_out = some h →
        ((run_ticks g fresh ts).1.bitmap = some h
          ∨ (run_ticks g fresh ts).1.old_bitmap = some h)
        ∧ destroyed (run_ticks g fresh ts).2.flatten h
            < acquired (run_ticks g fresh ts).2.flatten h
        ∧ ((acquisitions (run_ticks g fresh ts).2.flatten).Nodup →
            Call.destroy h ∉ (run_ticks g fresh ts).2.flatten))
    ∧ (∀ o, Call.destroy o ∈ (run g t (run_ticks g fresh ts).1).2 →
        ∃ b rest, (run_ticks g fresh ts).1.bitmap = some b
          ∧ (run g t (run_ticks g fresh ts).1).2
              = Call.bitmap_out_set b :: Call.destroy o :: rest
          ∧ (run g t (run_ticks g fresh ts).1).1.bitmap_out = some b) := by
  have hinv := node_inv_reachable g ts
  generalize (run_ticks g fresh ts).1 = s at hinv ⊢
  generalize (run_ticks g fresh ts).2.flatten = history at hinv ⊢
  obtain ⟨_, h2, h3, _⟩ := hinv
  constructor
  · intro h hout
    have hheld := h2 h hout
    have hpos : 1 ≤ holds s h := by
      unfold holds
      rcases hheld with hb | ho
      · simp [hb]
      · simp [ho]
    have hl := h3 h
    refine ⟨hheld, by omega, ?_⟩
    intro hnd
    have hle : acquired history h ≤ 1 := by
      rw [acquired_eq_count]
      exact List.nodup_iff_count_le_one.mp hnd h
    exact destroyed_eq_zero history h (by omega)
  · intro o ho
    obtain ⟨_, b, rest, hb, _, hc, hout⟩ := run_destroy_after_publish g t s o ho
    exact ⟨b, rest, hb, hc, hout⟩

/-- Counterexample to C10 as stated.  Over the snapshots `octave = 1`,
`size = 5`, `octave = 1`, `octave = 1` the cache hands back bitmap 1 for the
repeated snapshot.  Bitmap 1 was passed to `destroy` when bitmap 2 became
ready, and is the published output at the end. -/
theorem output_was_destroyed_earlier :
    ready_before_next sample_cache_handle fresh revisit_ticks = true
    ∧ (run_ticks sample_cache_handle fresh revisit_ticks).1.bitmap_out = some 1
    ∧ Call.destroy 1 ∈ (run_ticks sample_cache_handle fresh revisit_ticks).2.flatten
    ∧ (run_ticks sample_cache_handle fresh revisit_ticks).2.flatten
        = [Call.aquire_create "perlin:octave" 1,
           Call.set_filename 1 "perlin:octave",
           Call.load 1 (generator_args snapshot_octave),
           Call.bitmap_out_set 1,
           Call.aquire_create "perlin:size" 2,
           Call.set_filename 2 "perlin:size",
           Call.load 2 (generator_args snapshot_size),
           Call.bitmap_out_set 2,
           Call.destroy 1,
           Call.aquire_create "perlin:octave" 1,
           Call.set_filename 1 "perlin:octave",
           Call.load 1 (generator_args snapshot_octave),
           Call.bitmap_out_set 1,
           Call.destroy 2] := by
  decide!

end module_bitmap_perlin_noise

namespace vsx_bitmap_loader_jpg

/-! ## The JPEG loader -/

theorem counter_width_one_lt (cw : counter_width) : 1 < 2 ^ cw.bits := by
  cases cw <;> simp [counter_width.bits]

theorem worker_bitmap_data_ready (E : Collaborators) (cw : counter_width)
    (thread_info : vsx_texture_loader_thread_info) (bitmap : vsx_bitmap)
    (hflip : ∀ b, (E.flip_vertically b).data_ready = b.data_ready)
    (hsplit : ∀ b, (E.split_into_cubemap b).data_ready = b.data_ready) :
    (worker_bitmap E cw thread_info bitmap).data_ready
      = (bitmap.data_ready + 1) % 2 ^ cw.bits := by
  unfold worker_bitmap
  cases thread_info.hint.flip_vertically <;> cases thread_info.hint.split_cubemap <;>
    simp [hflip, hsplit]

/-- Claim C7, amended.  For every `thread_info`, decoder result and
combination of the two hints, every counter width, and transforms that leave
`data_ready` alone, `worker` replaces `data_ready` by its successor in the
counter's width; when `data_ready` is below the counter's maximum that is
exactly one higher than before, and a bitmap that starts at 0 ends at 1. -/
theorem worker_increments_data_ready (E : Collaborators) (cw : counter_width)
    (thread_info : vsx_texture_loader_thread_info) (w : World)
    (hflip : ∀ b, (E.flip_vertically b).data_ready = b.data_ready)
    (hsplit : ∀ b, (E.split_into_cubemap b).data_ready = b.data_ready) :
    (worker E cw thread_info w).bitmap.data_ready
      = (w.bitmap.data_ready + 1) % 2 ^ cw.bits
    ∧ (w.bitmap.data_ready + 1 < 2 ^ cw.bits →
        (worker E cw thread_info w).bitmap.data_ready = w.bitmap.data_ready + 1)
    ∧ (w.bitmap.data_ready = 0 → (worker E cw thread_info w).bitmap.data_ready = 1) := by
  have h : (worker E cw thread_info w).bitmap.data_ready
      = (w.bitmap.data_ready + 1) % 2 ^ cw.bits :=
    worker_bitmap_data_ready E cw thread_info w.bitmap hflip hsplit
  refine ⟨h, fun hlt => ?_, fun h0 => ?_⟩
  · rw [h, Nat.mod_eq_of_lt hlt]
  · rw [h, h0, Nat.mod_eq_of_lt (counter_width_one_lt cw)]

/-- Counterexample to C7 as stated.  With an eight-byte counter at its
maximum `2 ^ 64 - 1`, `worker` leaves `data_ready = 0`: the counter has
decreased and is not one higher than before. -/
theorem worker_wraps_data_ready :
    saturated_world.bitmap.data_ready = 2 ^ 64 - 1
    ∧ (worker sample_collaborators counter_width.bytes8 sample_thread_info
        saturated_world).bitmap.data_ready = 0
    ∧ (worker sample_collaborators counter_width.bytes8 sample_thread_info
        saturated_world).bitmap.data_ready < saturated_world.bitmap.data_ready
    ∧ (worker sample_collaborators counter_width.bytes8 sample_thread_info
        saturated_world).bitmap.data_ready ≠ saturated_world.bitmap.data_ready + 1 := by
  decide!

/-- Witness for C7, amended: a missing file with both hints set, on a fresh
bitmap with an eight-byte counter. -/
theorem worker_increments_data_ready_witness :
    sample_world.bitmap.data_ready = 0
    ∧ (worker sample_collaborators counter_width.bytes8 sample_thread_info
        sample_world).bitmap.data_ready = 1
    ∧ (worker sample_collaborators counter_width.bytes8 sample_thread_info
        sample_world).bitmap.width = 0
    ∧ (worker sample_collaborators counter_width.bytes8 sample_thread_info
        sample_world).bitmap.height = 0 :=
  ⟨rfl,
   (worker_increments_data_ready sample_collaborators counter_width.bytes8
      sample_thread_info sample_world (fun _ => rfl) (fun _ => rfl)).2.2 rfl,
   rfl, rfl⟩

/-- Claim C8.  With `thread = false`, `load_internal` has exactly the effect
of `worker`, for every counter width: when it returns, the fetch-and-add on
`data_ready` has been done (the counter is at its successor, and is 1, hence
positive, for a bitmap that started at 0) and no thread object has been
created. -/
theorem load_internal_synchronous (E : Collaborators) (cw : counter_width)
    (thread_info : vsx_texture_loader_thread_info) (w : World)
    (hflip : ∀ b, (E.flip_vertically b).data_ready = b.data_ready)
    (hsplit : ∀ b, (E.split_into_cubemap b).data_ready = b.data_ready) :
    load_internal E cw false thread_info w = worker E cw thread_info w
    ∧ (load_internal E cw false thread_info w).threads = w.threads
    ∧ (load_internal E cw false thread_info w).bitmap.data_ready
        = (w.bitmap.data_ready + 1) % 2 ^ cw.bits
    ∧ (w.bitmap.data_ready = 0 →
        (load_internal E cw false thread_info w).bitmap.data_ready = 1
        ∧ 0 < (load_internal E cw false thread_info w).bitmap.data_ready) := by
  have h : (worker E cw thread_info w).bitmap.data_ready
      = (w.bitmap.data_ready + 1) % 2 ^ cw.bits :=
    worker_bitmap_data_ready E cw thread_info w.bitmap hflip hsplit
  have hl : load_internal E cw false thread_info w = worker E cw thread_info w := by
    simp [load_internal]
  rw [hl]
  refine ⟨rfl, rfl, h, fun h0 => ?_⟩
  have h1 : (worker E cw thread_info w).bitmap.data_ready = 1 := by
    rw [h, h0, Nat.mod_eq_of_lt (counter_width_one_lt cw)]
  exact ⟨h1, by omega⟩

/-- Witness for C8: the synchronous call on a missing file, next to the
threaded call, which creates a thread object and returns with `data_ready`
still 0. -/
theorem load_internal_synchronous_witness :
    (load_internal sample_collaborators counter_width.bytes8 false sample_thread_info
        sample_world).threads = []
    ∧ (load_internal sample_collaborators counter_width.bytes8 false sample_thread_info
        sample_world).bitmap.data_ready = 1
    ∧ (load_internal sample_collaborators counter_width.bytes8 true sample_thread_info
        sample_world).threads = [{ thread_info := sample_thread_info }]
    ∧ (load_internal sample_collaborators counter_width.bytes8 true sample_thread_info
        sample_world).bitmap.data_ready = 0 :=
  ⟨(load_internal_synchronous sample_collaborators counter_width.bytes8 sample_thread_info
      sample_world (fun _ => rfl) (fun _ => rfl)).2.1,
   ((load_internal_synchronous sample_collaborators counter_width.bytes8 sample_thread_info
      sample_world (fun _ => rfl) (fun _ => rfl)).2.2.2 rfl).1,
   rfl, rfl⟩

end vsx_bitmap_loader_jpg
